import Mathlib

/-!
Verification of the RoboPredictor day/night prediction algorithm
(src/task1/PredictionAlgorithm/PredictionAlgorithm.cpp).

The C++ program keeps a `RoboMemory` with three hash maps
(single-planet day/night tallies, last outcome per ordered planet pair,
last outcome per ordered planet triple), the two most recently visited
planet identifiers, and a counter of consecutive "day" outcomes.  The
two operations are `predictTimeOfDayOnNextPlanet` (read-only) and
`observeAndRecordTimeofdayOnNextPlanet` (the only mutation).

Embedding choices: planet identifiers are 64-bit values used only as
map keys, so they are modelled as `Nat`; the three `unordered_map`s are
modelled extensionally as functions into `Option`, with
`std::unordered_map::find` becoming application and `operator[]`-style
insertion becoming pointwise update; the counters (`int`, only ever
incremented from 0 or reset to 0) are modelled as `Nat`.
-/

/-- Day/night statistics for one planet, mirroring `struct TimeStats`. -/
structure TimeStats where
  dayCount : Nat
  nightCount : Nat
deriving DecidableEq, Repr

/-- The predictor's memory, mirroring `struct RoboPredictor::RoboMemory`.
The three maps are modelled extensionally: a key is "present" when the
function returns `some`. -/
structure RoboMemory where
  planetObservations : Nat → Option TimeStats
  planetPairObservations : Nat × Nat → Option Bool
  planetTripleObservations : Nat × Nat × Nat → Option Bool
  lastPlanetID : Option Nat
  lastLastPlanetID : Option Nat
  consecutiveDayCount : Nat

/-- The freshly constructed memory: `new RoboMemory` value-initialises the
maps empty, the optionals disengaged and the counter 0 (in-class
initialisers / default constructors). -/
def initialMemory : RoboMemory where
  planetObservations := fun _ => none
  planetPairObservations := fun _ => none
  planetTripleObservations := fun _ => none
  lastPlanetID := none
  lastLastPlanetID := none
  consecutiveDayCount := 0

/-- Step 2 of `predictTimeOfDayOnNextPlanet`: the triple-record lookup.
Returns `some b` exactly when both history slots are engaged and the
triple `(lastLastPlanetID, lastPlanetID, nextPlanetID)` is found, in
which case `hasTriplePrediction = true` and `triplePrediction = b` in
the source. -/
def tripleLookup (m : RoboMemory) (nextPlanetID : Nat) : Option Bool :=
  match m.lastLastPlanetID, m.lastPlanetID with
  | some ll, some l => m.planetTripleObservations (ll, l, nextPlanetID)
  | _, _ => none

/-- Step 3 of `predictTimeOfDayOnNextPlanet`: the pair-record lookup.
Returns `some b` exactly when `lastPlanetID` is engaged and the pair
`(lastPlanetID, nextPlanetID)` is found. -/
def pairLookup (m : RoboMemory) (nextPlanetID : Nat) : Option Bool :=
  match m.lastPlanetID with
  | some l => m.planetPairObservations (l, nextPlanetID)
  | none => none

/-- `RoboPredictor::predictTimeOfDayOnNextPlanet`.
Step 1: if `consecutiveDayCount >= 2`, return `false`.
Steps 2-3: triple and pair lookups.
Step 4: if both lookups succeeded and
`triplePrediction == pairPrediction && pairPrediction == spaceshipComputerPrediction`,
return the spaceship prediction.
Step 5: otherwise consult the single-planet record and return
`dayCount > nightCount` when present.
Step 6: otherwise return the spaceship prediction. -/
def predictTimeOfDayOnNextPlanet (m : RoboMemory) (nextPlanetID : Nat)
    (spaceshipComputerPrediction : Bool) : Bool :=
  if 2 ≤ m.consecutiveDayCount then
    false
  else
    match tripleLookup m nextPlanetID, pairLookup m nextPlanetID with
    | some triplePrediction, some pairPrediction =>
      if triplePrediction = pairPrediction ∧ pairPrediction = spaceshipComputerPrediction then
        spaceshipComputerPrediction
      else
        match m.planetObservations nextPlanetID with
        | some stats => decide (stats.dayCount > stats.nightCount)
        | none => spaceshipComputerPrediction
    | _, _ =>
      match m.planetObservations nextPlanetID with
      | some stats => decide (stats.dayCount > stats.nightCount)
      | none => spaceshipComputerPrediction

/-- `RoboPredictor::observeAndRecordTimeofdayOnNextPlanet`, statement by
statement: update the consecutive-day counter, write the triple record
(when both history slots are engaged), write the pair record (when
`lastPlanetID` is engaged), shift the history window, then bump the
single-planet tally (`operator[]` default-constructs a zero `TimeStats`
for an absent key). -/
def observeAndRecordTimeofdayOnNextPlanet (m : RoboMemory) (nextPlanetID : Nat)
    (timeOfDayOnNextPlanet : Bool) : RoboMemory :=
  let m1 := { m with consecutiveDayCount :=
    if timeOfDayOnNextPlanet then m.consecutiveDayCount + 1 else 0 }
  let m2 :=
    match m1.lastLastPlanetID, m1.lastPlanetID with
    | some ll, some l =>
      { m1 with planetTripleObservations := fun k =>
          if k = (ll, l, nextPlanetID) then some timeOfDayOnNextPlanet
          else m1.planetTripleObservations k }
    | _, _ => m1
  let m3 :=
    match m2.lastPlanetID with
    | some l =>
      { m2 with planetPairObservations := fun k =>
          if k = (l, nextPlanetID) then some timeOfDayOnNextPlanet
          else m2.planetPairObservations k }
    | none => m2
  let m4 := { m3 with lastLastPlanetID := m3.lastPlanetID,
                      lastPlanetID := some nextPlanetID }
  let stats := (m4.planetObservations nextPlanetID).getD ⟨0, 0⟩
  let stats' :=
    if timeOfDayOnNextPlanet then { stats with dayCount := stats.dayCount + 1 }
    else { stats with nightCount := stats.nightCount + 1 }
  { m4 with planetObservations := fun k =>
      if k = nextPlanetID then some stats' else m4.planetObservations k }

/-- `predictTimeOfDayOnNextPlanet` with the memory threaded through
explicitly.  The source function performs only `find` lookups on the
maps (no insertion, no assignment to any `RoboMemory` field), so the
memory component is returned as received. -/
def predictTimeOfDayOnNextPlanetS (m : RoboMemory) (nextPlanetID : Nat)
    (spaceshipComputerPrediction : Bool) : Bool × RoboMemory :=
  (predictTimeOfDayOnNextPlanet m nextPlanetID spaceshipComputerPrediction, m)

/-- One external call on the predictor: either a prediction request or an
observation. -/
inductive Op where
  | predictOp (nextPlanetID : Nat) (spaceshipComputerPrediction : Bool)
  | observeOp (nextPlanetID : Nat) (timeOfDayOnNextPlanet : Bool)
deriving DecidableEq, Repr

/-- Effect of one call on the memory. -/
def applyOp (m : RoboMemory) : Op → RoboMemory
  | .predictOp id hint => (predictTimeOfDayOnNextPlanetS m id hint).2
  | .observeOp id outcome => observeAndRecordTimeofdayOnNextPlanet m id outcome

/-- Memory after a sequence of calls, oldest first. -/
def run (m : RoboMemory) : List Op → RoboMemory
  | [] => m
  | op :: rest => run (applyOp m op) rest

/-- Number of `observe` calls in a call sequence. -/
def countObserves : List Op → Nat
  | [] => 0
  | .predictOp _ _ :: rest => countObserves rest
  | .observeOp _ _ :: rest => countObserves rest + 1

/-! ### Field-wise effect of one `observe` call (helper lemmas) -/

theorem observe_consecutiveDayCount (m : RoboMemory) (id : Nat) (o : Bool) :
    (observeAndRecordTimeofdayOnNextPlanet m id o).consecutiveDayCount =
      if o then m.consecutiveDayCount + 1 else 0 := by
  obtain ⟨po, pp, pt, lp, llp, c⟩ := m
  cases llp <;> cases lp <;> rfl

theorem observe_lastPlanetID (m : RoboMemory) (id : Nat) (o : Bool) :
    (observeAndRecordTimeofdayOnNextPlanet m id o).lastPlanetID = some id := by
  obtain ⟨po, pp, pt, lp, llp, c⟩ := m
  cases llp <;> cases lp <;> rfl

theorem observe_lastLastPlanetID (m : RoboMemory) (id : Nat) (o : Bool) :
    (observeAndRecordTimeofdayOnNextPlanet m id o).lastLastPlanetID = m.lastPlanetID := by
  obtain ⟨po, pp, pt, lp, llp, c⟩ := m
  cases llp <;> cases lp <;> rfl

theorem observe_planetObservations (m : RoboMemory) (id : Nat) (o : Bool) (k : Nat) :
    (observeAndRecordTimeofdayOnNextPlanet m id o).planetObservations k =
      if k = id then
        some (if o then
                { (m.planetObservations id).getD ⟨0, 0⟩ with
                    dayCount := ((m.planetObservations id).getD ⟨0, 0⟩).dayCount + 1 }
              else
                { (m.planetObservations id).getD ⟨0, 0⟩ with
                    nightCount := ((m.planetObservations id).getD ⟨0, 0⟩).nightCount + 1 })
      else m.planetObservations k := by
  obtain ⟨po, pp, pt, lp, llp, c⟩ := m
  cases llp <;> cases lp <;> rfl

theorem observe_planetPairObservations (m : RoboMemory) (id : Nat) (o : Bool)
    (k : Nat × Nat) :
    (observeAndRecordTimeofdayOnNextPlanet m id o).planetPairObservations k =
      match m.lastPlanetID with
      | some l => if k = (l, id) then some o else m.planetPairObservations k
      | none => m.planetPairObservations k := by
  obtain ⟨po, pp, pt, lp, llp, c⟩ := m
  cases llp <;> cases lp <;> rfl

theorem observe_planetTripleObservations (m : RoboMemory) (id : Nat) (o : Bool)
    (k : Nat × Nat × Nat) :
    (observeAndRecordTimeofdayOnNextPlanet m id o).planetTripleObservations k =
      match m.lastLastPlanetID, m.lastPlanetID with
      | some ll, some l => if k = (ll, l, id) then some o else m.planetTripleObservations k
      | _, _ => m.planetTripleObservations k := by
  obtain ⟨po, pp, pt, lp, llp, c⟩ := m
  cases llp <;> cases lp <;> rfl

/-! ### Claim theorems -/

/-- C5: for a freshly constructed predictor (empty memory, no `observe`
calls yet), the very first `predict(x, hint)` returns exactly `hint`,
for every planet identifier `x` and every boolean `hint`. -/
theorem predict_initial_returns_hint (x : Nat) (hint : Bool) :
    predictTimeOfDayOnNextPlanet initialMemory x hint = hint := rfl

/-- C1: whenever `consecutiveDayCount` is at least 2 (in any memory state,
hence in particular in every reachable one), `predict` returns `false`
for every `nextPlanetId` and every `spaceshipHint`, regardless of the
contents of the three observation maps; and immediately after any two
consecutive `observe` calls with `actualOutcome = true` the counter is
indeed at least 2, so `predict` then returns `false`. -/
theorem streak_cap :
    (∀ (m : RoboMemory) (id : Nat) (hint : Bool), 2 ≤ m.consecutiveDayCount →
      predictTimeOfDayOnNextPlanet m id hint = false)
    ∧ ∀ (m : RoboMemory) (a b id : Nat) (hint : Bool),
      2 ≤ (observeAndRecordTimeofdayOnNextPlanet
            (observeAndRecordTimeofdayOnNextPlanet m a true) b true).consecutiveDayCount
      ∧ predictTimeOfDayOnNextPlanet
          (observeAndRecordTimeofdayOnNextPlanet
            (observeAndRecordTimeofdayOnNextPlanet m a true) b true) id hint = false := by
  have hmain : ∀ (m : RoboMemory) (id : Nat) (hint : Bool), 2 ≤ m.consecutiveDayCount →
      predictTimeOfDayOnNextPlanet m id hint = false := by
    intro m id hint h
    unfold predictTimeOfDayOnNextPlanet
    rw [if_pos h]
  refine ⟨hmain, fun m a b id hint => ?_⟩
  have hc : 2 ≤ (observeAndRecordTimeofdayOnNextPlanet
      (observeAndRecordTimeofdayOnNextPlanet m a true) b true).consecutiveDayCount := by
    rw [observe_consecutiveDayCount, observe_consecutiveDayCount]
    simp
  exact ⟨hc, hmain _ id hint hc⟩

/-- Witness for C1 at a concrete state and after two concrete day
observations. -/
theorem streak_cap_witness :
    predictTimeOfDayOnNextPlanet { initialMemory with consecutiveDayCount := 2 } 9 true = false
    ∧ predictTimeOfDayOnNextPlanet
        (observeAndRecordTimeofdayOnNextPlanet
          (observeAndRecordTimeofdayOnNextPlanet initialMemory 1 true) 2 true) 3 false = false :=
  ⟨streak_cap.1 _ 9 true (by decide), (streak_cap.2 initialMemory 1 2 3 false).2⟩

/-- C7: `predict` never mutates the memory: all three observation maps,
both optional last-planet identifiers and the consecutive-day counter
are identical before and after the call.  In the source, `predict`
performs only `find` lookups, so the threaded-state embedding returns
the memory unchanged. -/
theorem predict_read_only (m : RoboMemory) (id : Nat) (hint : Bool) :
    (predictTimeOfDayOnNextPlanetS m id hint).2.planetObservations = m.planetObservations
    ∧ (predictTimeOfDayOnNextPlanetS m id hint).2.planetPairObservations
        = m.planetPairObservations
    ∧ (predictTimeOfDayOnNextPlanetS m id hint).2.planetTripleObservations
        = m.planetTripleObservations
    ∧ (predictTimeOfDayOnNextPlanetS m id hint).2.lastPlanetID = m.lastPlanetID
    ∧ (predictTimeOfDayOnNextPlanetS m id hint).2.lastLastPlanetID = m.lastLastPlanetID
    ∧ (predictTimeOfDayOnNextPlanetS m id hint).2.consecutiveDayCount = m.consecutiveDayCount :=
  ⟨rfl, rfl, rfl, rfl, rfl, rfl⟩

/-- C10: no operation removes an entry from any of the three observation
maps: every key present before a `predict` or `observe` call is still
present afterwards (values may be overwritten, never deleted). -/
theorem no_eviction (m : RoboMemory) (op : Op) :
    (∀ k, (m.planetObservations k).isSome = true →
      ((applyOp m op).planetObservations k).isSome = true)
    ∧ (∀ k, (m.planetPairObservations k).isSome = true →
      ((applyOp m op).planetPairObservations k).isSome = true)
    ∧ (∀ k, (m.planetTripleObservations k).isSome = true →
      ((applyOp m op).planetTripleObservations k).isSome = true) := by
  cases op with
  | predictOp id hint => exact ⟨fun k h => h, fun k h => h, fun k h => h⟩
  | observeOp id o =>
    refine ⟨fun k h => ?_, fun k h => ?_, fun k h => ?_⟩
    · rw [applyOp, observe_planetObservations]
      split <;> simp_all
    · rw [applyOp, observe_planetPairObservations]
      cases m.lastPlanetID <;> simp_all
      split <;> simp_all
    · rw [applyOp, observe_planetTripleObservations]
      cases m.lastLastPlanetID <;> cases m.lastPlanetID <;> simp_all
      split <;> simp_all

/-- Witness for C10: a key recorded by one observation survives a second
observation. -/
theorem no_eviction_witness :
    (((applyOp (observeAndRecordTimeofdayOnNextPlanet initialMemory 2 true)
        (.observeOp 3 false)).planetObservations 2).isSome = true) :=
  (no_eviction (observeAndRecordTimeofdayOnNextPlanet initialMemory 2 true)
    (.observeOp 3 false)).1 2 (by decide)

/-- C2: whenever `consecutiveDayCount < 2`, both history slots are
engaged, the triple `(lastLastPlanetId, lastPlanetId, nextPlanetId)` and
the pair `(lastPlanetId, nextPlanetId)` are present, and both stored
values equal `spaceshipHint`, `predict` returns that unanimous value —
regardless of the `planetObservations` tally for `nextPlanetId`. -/
theorem triple_consensus (m : RoboMemory) (a b id : Nat) (hint : Bool)
    (hc : m.consecutiveDayCount < 2)
    (hll : m.lastLastPlanetID = some a)
    (hl : m.lastPlanetID = some b)
    (ht : m.planetTripleObservations (a, b, id) = some hint)
    (hp : m.planetPairObservations (b, id) = some hint) :
    predictTimeOfDayOnNextPlanet m id hint = hint := by
  have hc' : ¬ 2 ≤ m.consecutiveDayCount := by omega
  have ht' : tripleLookup m id = some hint := by
    unfold tripleLookup; rw [hll, hl]; exact ht
  have hp' : pairLookup m id = some hint := by
    unfold pairLookup; rw [hl]; exact hp
  unfold predictTimeOfDayOnNextPlanet
  rw [if_neg hc', ht', hp']
  simp

/-- Witness for C2: a state whose single-planet tally for planet 3 is
0 days vs 5 nights, yet the unanimous triple/pair/hint value `true` is
returned. -/
theorem triple_consensus_witness :
    predictTimeOfDayOnNextPlanet
      { planetObservations := fun k => if k = 3 then some ⟨0, 5⟩ else none,
        planetPairObservations := fun k => if k = (2, 3) then some true else none,
        planetTripleObservations := fun k => if k = (1, 2, 3) then some true else none,
        lastPlanetID := some 2,
        lastLastPlanetID := some 1,
        consecutiveDayCount := 0 } 3 true = true :=
  triple_consensus _ 1 2 3 true (by decide) rfl rfl (by decide) (by decide)

/-- C4: when `consecutiveDayCount < 2` and the rule-4 consensus condition
fails (that condition holds exactly when both lookups return
`some spaceshipHint`), a present `planetObservations` record decides the
prediction by strict majority `dayCount > nightCount`; on a tie the
prediction is `false` (night), ignoring the hint. -/
theorem single_planet_fallback :
    (∀ (m : RoboMemory) (id : Nat) (hint : Bool) (stats : TimeStats),
      m.consecutiveDayCount < 2 →
      ¬(tripleLookup m id = some hint ∧ pairLookup m id = some hint) →
      m.planetObservations id = some stats →
      predictTimeOfDayOnNextPlanet m id hint
        = decide (stats.dayCount > stats.nightCount))
    ∧ ∀ (m : RoboMemory) (id : Nat) (hint : Bool) (stats : TimeStats),
      m.consecutiveDayCount < 2 →
      ¬(tripleLookup m id = some hint ∧ pairLookup m id = some hint) →
      m.planetObservations id = some stats →
      stats.dayCount = stats.nightCount →
      predictTimeOfDayOnNextPlanet m id hint = false := by
  have hmain : ∀ (m : RoboMemory) (id : Nat) (hint : Bool) (stats : TimeStats),
      m.consecutiveDayCount < 2 →
      ¬(tripleLookup m id = some hint ∧ pairLookup m id = some hint) →
      m.planetObservations id = some stats →
      predictTimeOfDayOnNextPlanet m id hint
        = decide (stats.dayCount > stats.nightCount) := by
    intro m id hint stats hc hcons hobs
    have hc' : ¬ 2 ≤ m.consecutiveDayCount := by omega
    unfold predictTimeOfDayOnNextPlanet
    rw [if_neg hc']
    cases ht : tripleLookup m id with
    | none => cases hp : pairLookup m id <;> rw [hobs]
    | some tp =>
      cases hp : pairLookup m id with
      | none => rw [hobs]
      | some pp =>
        rcases Decidable.em (tp = pp ∧ pp = hint) with hyes | hno
        · exact absurd ⟨by rw [ht, hyes.1, hyes.2], by rw [hp, hyes.2]⟩ hcons
        · show (if tp = pp ∧ pp = hint then hint
            else match m.planetObservations id with
              | some stats => decide (stats.dayCount > stats.nightCount)
              | none => hint) = decide (stats.dayCount > stats.nightCount)
          rw [if_neg hno, hobs]
  refine ⟨hmain, fun m id hint stats hc hcons hobs htie => ?_⟩
  rw [hmain m id hint stats hc hcons hobs]
  simp [htie]

/-- Witness for C4: a tied 1-1 tally for planet 4 yields `false` even
though the hint is `true`. -/
theorem single_planet_fallback_witness :
    predictTimeOfDayOnNextPlanet
      { planetObservations := fun k => if k = 4 then some ⟨1, 1⟩ else none,
        planetPairObservations := fun _ => none,
        planetTripleObservations := fun _ => none,
        lastPlanetID := none,
        lastLastPlanetID := none,
        consecutiveDayCount := 0 } 4 true = false :=
  single_planet_fallback.2 _ 4 true ⟨1, 1⟩ (by decide) (by decide) (by decide) rfl

/-- C3: each `observe(nextPlanetId, actualOutcome)` call performs exactly
these updates, with pair/triple keys computed from the *pre-update*
`lastPlanetId` / `lastLastPlanetId`: the consecutive-day counter is
incremented on day and reset on night; the triple record at
`(old lastLastPlanetId, old lastPlanetId, nextPlanetId)` is overwritten
with the outcome when both old slots are engaged (all other triple keys
untouched, and the map untouched when a slot is disengaged); likewise
the pair record at `(old lastPlanetId, nextPlanetId)`; the history
window shifts; and the single-planet tally for `nextPlanetId` gets its
day (resp. night) count incremented, all other single keys untouched.
Consequently two `observe` calls writing the same pair key leave only
the most recent outcome retrievable, while the single-planet record
tallies both. -/
theorem observe_update_spec :
    (∀ (m : RoboMemory) (id : Nat) (o : Bool),
      (observeAndRecordTimeofdayOnNextPlanet m id o).consecutiveDayCount
          = (if o then m.consecutiveDayCount + 1 else 0)
      ∧ (observeAndRecordTimeofdayOnNextPlanet m id o).lastLastPlanetID = m.lastPlanetID
      ∧ (observeAndRecordTimeofdayOnNextPlanet m id o).lastPlanetID = some id
      ∧ (∀ a b k, m.lastLastPlanetID = some a → m.lastPlanetID = some b →
          (observeAndRecordTimeofdayOnNextPlanet m id o).planetTripleObservations k
            = if k = (a, b, id) then some o else m.planetTripleObservations k)
      ∧ (m.lastLastPlanetID = none ∨ m.lastPlanetID = none →
          (observeAndRecordTimeofdayOnNextPlanet m id o).planetTripleObservations
            = m.planetTripleObservations)
      ∧ (∀ b k, m.lastPlanetID = some b →
          (observeAndRecordTimeofdayOnNextPlanet m id o).planetPairObservations k
            = if k = (b, id) then some o else m.planetPairObservations k)
      ∧ (m.lastPlanetID = none →
          (observeAndRecordTimeofdayOnNextPlanet m id o).planetPairObservations
            = m.planetPairObservations)
      ∧ (∀ k, (observeAndRecordTimeofdayOnNextPlanet m id o).planetObservations k
          = if k = id then
              some (if o then
                  { (m.planetObservations id).getD ⟨0, 0⟩ with
                      dayCount := ((m.planetObservations id).getD ⟨0, 0⟩).dayCount + 1 }
                else
                  { (m.planetObservations id).getD ⟨0, 0⟩ with
                      nightCount := ((m.planetObservations id).getD ⟨0, 0⟩).nightCount + 1 })
            else m.planetObservations k))
    ∧ ∀ (m : RoboMemory) (p : Nat) (o1 o2 : Bool), m.lastPlanetID = some p →
        (observeAndRecordTimeofdayOnNextPlanet
          (observeAndRecordTimeofdayOnNextPlanet m p o1) p o2).planetPairObservations (p, p)
          = some o2
        ∧ (observeAndRecordTimeofdayOnNextPlanet
            (observeAndRecordTimeofdayOnNextPlanet m p o1) p o2).planetObservations p
          = some ⟨((m.planetObservations p).getD ⟨0, 0⟩).dayCount
                    + (if o1 then 1 else 0) + (if o2 then 1 else 0),
                  ((m.planetObservations p).getD ⟨0, 0⟩).nightCount
                    + (if o1 then 0 else 1) + (if o2 then 0 else 1)⟩ := by
  constructor
  · intro m id o
    refine ⟨observe_consecutiveDayCount m id o, observe_lastLastPlanetID m id o,
      observe_lastPlanetID m id o, ?_, ?_, ?_, ?_, observe_planetObservations m id o⟩
    · intro a b k hll hl
      rw [observe_planetTripleObservations, hll, hl]
    · intro h
      funext k
      rw [observe_planetTripleObservations]
      rcases h with h | h
      · rw [h]
      · rw [h]; cases m.lastLastPlanetID <;> rfl
    · intro b k hl
      rw [observe_planetPairObservations, hl]
    · intro h
      funext k
      rw [observe_planetPairObservations, h]
  · intro m p o1 o2 hl
    have hl1 : (observeAndRecordTimeofdayOnNextPlanet m p o1).lastPlanetID = some p :=
      observe_lastPlanetID m p o1
    constructor
    · rw [observe_planetPairObservations, hl1]
      simp
    · rw [observe_planetObservations]
      rw [if_pos rfl]
      rw [observe_planetObservations]
      rw [if_pos rfl]
      cases o1 <;> cases o2 <;> simp

/-- Witness for C3: a pair write at a concrete key, and a same-key double
write retaining only the latest outcome. -/
theorem observe_update_spec_witness :
    (observeAndRecordTimeofdayOnNextPlanet
      (observeAndRecordTimeofdayOnNextPlanet initialMemory 5 true) 7
        false).planetPairObservations (5, 7) = some false
    ∧ (observeAndRecordTimeofdayOnNextPlanet
        (observeAndRecordTimeofdayOnNextPlanet
          (observeAndRecordTimeofdayOnNextPlanet initialMemory 5 true) 5 true) 5
            false).planetPairObservations (5, 5) = some false := by
  constructor
  · have h := (observe_update_spec.1 (observeAndRecordTimeofdayOnNextPlanet initialMemory 5 true)
      7 false).2.2.2.2.2.1 5 (5, 7) (by decide)
    simpa using h
  · exact ((observe_update_spec.2 (observeAndRecordTimeofdayOnNextPlanet initialMemory 5 true)
      5 true false) (by decide)).1

/-- C6 as stated fails on the code: from a fresh predictor, after the three
observations `(P, day)`, `(P, day)`, `(P, night)` with `P = 1`, the call
`predict(P, false)` returns `false`, not `true`.  The three observations
record the pair `(P, P) ↦ night` and the triple `(P, P, P) ↦ night`,
which agree with the hint `false`, so the triple-consensus rule fires
before the single-planet majority is consulted. -/
theorem single_history_counterexample :
    predictTimeOfDayOnNextPlanet
      (observeAndRecordTimeofdayOnNextPlanet
        (observeAndRecordTimeofdayOnNextPlanet
          (observeAndRecordTimeofdayOnNextPlanet initialMemory 1 true) 1 true) 1 false)
      1 false = false := by decide

/-- C6 amended: from a fresh predictor, after three `observe` calls on
planet `P` with outcomes day, day, night in that order, `predict(P, true)`
returns `true`: the recorded pair and triple outcomes are night and
disagree with the day hint, so the consensus rule does not fire, and the
2-day-vs-1-night strict majority of the single-planet record decides. -/
theorem single_history_majority (p : Nat) :
    predictTimeOfDayOnNextPlanet
      (observeAndRecordTimeofdayOnNextPlanet
        (observeAndRecordTimeofdayOnNextPlanet
          (observeAndRecordTimeofdayOnNextPlanet initialMemory p true) p true) p false)
      p true = true := by
  simp only [predictTimeOfDayOnNextPlanet, tripleLookup, pairLookup,
    observe_consecutiveDayCount, observe_lastPlanetID, observe_lastLastPlanetID,
    observe_planetTripleObservations, observe_planetPairObservations,
    observe_planetObservations, initialMemory]
  norm_num

/-! ### The rolling identifier window over call sequences -/

theorem run_append (m : RoboMemory) (l l' : List Op) :
    run m (l ++ l') = run (run m l) l' := by
  induction l generalizing m with
  | nil => rfl
  | cons op rest ih => simp [run, ih]

/-- Engagement of the two history slots after any call sequence, as a
function of how many `observe` calls the sequence contains and of the
starting state. -/
theorem run_window (l : List Op) (m : RoboMemory) :
    ((run m l).lastPlanetID.isSome = true ↔
      1 ≤ countObserves l ∨ m.lastPlanetID.isSome = true)
    ∧ ((run m l).lastLastPlanetID.isSome = true ↔
      2 ≤ countObserves l
      ∨ (countObserves l = 1 ∧ m.lastPlanetID.isSome = true)
      ∨ (countObserves l = 0 ∧ m.lastLastPlanetID.isSome = true)) := by
  induction l generalizing m with
  | nil => simp [run, countObserves]
  | cons op rest ih =>
    cases op with
    | predictOp id hint =>
      have h := ih m
      simpa [run, applyOp, predictTimeOfDayOnNextPlanetS, countObserves] using h
    | observeOp id o =>
      have h := ih (observeAndRecordTimeofdayOnNextPlanet m id o)
      rw [observe_lastPlanetID, observe_lastLastPlanetID] at h
      simp only [Option.isSome_some, or_true, and_true, iff_true] at h
      simp only [run, applyOp, countObserves]
      constructor
      · simp only [h.1]
        constructor
        · intro _; left; omega
        · intro _; trivial
      · rw [h.2]
        constructor
        · rintro (h2 | h1 | ⟨h0, hP⟩)
          · left; omega
          · left; omega
          · right; left; exact ⟨by omega, hP⟩
        · rintro (h2 | ⟨h1, hP⟩ | ⟨h0, hP⟩)
          · rcases Nat.lt_or_ge (countObserves rest) 2 with hlt | hge
            · right; left; omega
            · left; exact hge
          · right; right; exact ⟨by omega, hP⟩
          · omega

/-- C9: in every state reachable from a fresh predictor by a sequence of
`predict` and `observe` calls, `lastPlanetId` is engaged exactly when at
least one `observe` has happened and `lastLastPlanetId` exactly when at
least two have; hence `lastLastPlanetId` is engaged only if
`lastPlanetId` is, and once a slot is engaged it stays engaged under any
further calls (so pair lookups/writes are possible whenever triple ones
are). -/
theorem history_window_invariant :
    (∀ l : List Op,
      ((run initialMemory l).lastPlanetID.isSome = true ↔ 1 ≤ countObserves l)
      ∧ ((run initialMemory l).lastLastPlanetID.isSome = true ↔ 2 ≤ countObserves l))
    ∧ (∀ l : List Op, (run initialMemory l).lastLastPlanetID.isSome = true →
        (run initialMemory l).lastPlanetID.isSome = true)
    ∧ (∀ l l' : List Op, (run initialMemory l).lastPlanetID.isSome = true →
        (run initialMemory (l ++ l')).lastPlanetID.isSome = true)
    ∧ (∀ l l' : List Op, (run initialMemory l).lastLastPlanetID.isSome = true →
        (run initialMemory (l ++ l')).lastLastPlanetID.isSome = true) := by
  have hbase : ∀ l : List Op,
      ((run initialMemory l).lastPlanetID.isSome = true ↔ 1 ≤ countObserves l)
      ∧ ((run initialMemory l).lastLastPlanetID.isSome = true ↔ 2 ≤ countObserves l) := by
    intro l
    have h := run_window l initialMemory
    simpa [initialMemory] using h
  refine ⟨hbase, fun l h => ?_, fun l l' h => ?_, fun l l' h => ?_⟩
  · rw [(hbase l).1]
    rw [(hbase l).2] at h
    omega
  · rw [run_append, (run_window l' (run initialMemory l)).1]
    right; exact h
  · rw [run_append, (run_window l' (run initialMemory l)).2]
    have h1 : (run initialMemory l).lastPlanetID.isSome = true := by
      rw [(hbase l).1]
      rw [(hbase l).2] at h
      omega
    rcases Nat.lt_or_ge (countObserves l') 1 with h0 | h1'
    · right; right; exact ⟨by omega, h⟩
    · rcases Nat.lt_or_ge (countObserves l') 2 with hlt | hge
      · right; left; exact ⟨by omega, h1⟩
      · left; exact hge

/-- Witness for C9 on a concrete two-observation sequence. -/
theorem history_window_witness :
    (run initialMemory [.observeOp 1 true, .observeOp 2 false]).lastPlanetID.isSome = true :=
  history_window_invariant.2.1 [.observeOp 1 true, .observeOp 2 false] (by decide)
